import Mathlib

/-!
Shallow embedding of the external-wallet backend's multi-chain transaction
dispatch and reconciliation subsystem (nonce arbiter, retry queue, failure
classification, fee estimation, balance fetching, webhook status store).

Stateful TypeScript code is embedded as explicit state passing: the in-memory
`Map` stores become functions `String → Option α`, provider network calls
become `Except String`-valued fields of an environment record (`.error m`
models a rejected promise whose message is `m`), and `Date.now()` becomes a
`now : Nat` argument (milliseconds).  External library primitives that only
produce display strings (ethers `formatEther`/`formatUnits`) are modelled by
a simple total stand-in, since no claim depends on the exact decimal
rendering.
-/

/-- Functional update modelling JavaScript `Map.prototype.set`. -/
def mset {α : Type} (m : String → Option α) (key : String) (v : α) :
    String → Option α :=
  fun k => if k = key then some v else m k

/-- Functional removal modelling JavaScript `Map.prototype.delete`. -/
def mdelete {α : Type} (m : String → Option α) (key : String) :
    String → Option α :=
  fun k => if k = key then none else m k

/-- Models JavaScript `String.prototype.toLowerCase` (per-character ASCII
lowercasing; the identifiers involved are ASCII). -/
def strToLower (s : String) : String := String.mk (s.toList.map Char.toLower)

/-- Models JavaScript `String.prototype.toUpperCase` (per-character ASCII
uppercasing). -/
def strToUpper (s : String) : String := String.mk (s.toList.map Char.toUpper)

/-- Auxiliary scan for substring search. -/
def strIncludesAux (pat : List Char) : List Char → Bool
  | [] => pat.isEmpty
  | c :: rest => pat.isPrefixOf (c :: rest) || strIncludesAux pat rest

/-- Models JavaScript `s.includes(pat)` (substring containment). -/
def strIncludes (s pat : String) : Bool :=
  strIncludesAux pat.toList s.toList

/-- JavaScript truthiness of an optional string (`undefined` and `""` are
falsy), as used by `a || b` fallbacks in the source. -/
def jsOrStr (a : Option String) (b : String) : String :=
  match a with
  | some s => if s = "" then b else s
  | none => b

/-- JavaScript `a || d` for an optional number: `undefined` and `0` are
falsy, so both fall back to the default. -/
def jsOrNat (a : Option Nat) (d : Nat) : Nat :=
  match a with
  | some n => if n = 0 then d else n
  | none => d

/-- JavaScript truthiness test of an optional string field. -/
def jsTruthyStr : Option String → Bool
  | none => false
  | some s => !(s = "")

-- ==================== NONCE MANAGEMENT (src/transactionManager.ts) =========

/-- Entry of the `nonceCache` map: `{ nonce, timestamp }`. -/
structure NonceCacheEntry where
  nonce : Nat
  timestamp : Nat
deriving DecidableEq

/-- The nonce cache `Map<string, {nonce, timestamp}>` as a function. -/
def NonceCache : Type := String → Option NonceCacheEntry

/-- The `const NONCE_CACHE_TTL = 30000; // 30 seconds` -/
def NONCE_CACHE_TTL : Nat := 30000

/-- Cache key `` `${chainTag}-${address.toLowerCase()}` `` where `chainTag`
is `provider._network?.chainId || 'unknown'` rendered as a string. -/
def mkNonceCacheKey (chainTag address : String) : String :=
  chainTag ++ "-" ++ strToLower address

/-- The `getNextNonce(provider, address)`.  The authoritative pending count
(`provider.getTransactionCount(address, 'pending')`) is the `onChainNonce`
argument: the source fetches it unconditionally before consulting the TTL.
Returns the allocated nonce and the updated cache. -/
def getNextNonce (cache : NonceCache) (chainTag address : String)
    (now onChainNonce : Nat) : Nat × NonceCache :=
  let cacheKey := mkNonceCacheKey chainTag address
  match cache cacheKey with
  | some cached =>
    if now - cached.timestamp < NONCE_CACHE_TTL then
      let nextNonce := max cached.nonce onChainNonce
      (nextNonce, mset cache cacheKey ⟨nextNonce + 1, now⟩)
    else
      (onChainNonce, mset cache cacheKey ⟨onChainNonce + 1, now⟩)
  | none => (onChainNonce, mset cache cacheKey ⟨onChainNonce + 1, now⟩)

/-- The `invalidateNonceCache(chainId, address)`: deletes the cache entry at key
`` `${chainId}-${address.toLowerCase()}` ``. -/
def invalidateNonceCache (cache : NonceCache) (chainId address : String) :
    NonceCache :=
  mdelete cache (chainId ++ "-" ++ strToLower address)

-- ==================== SEND RESULT / TRANSACTION QUEUE ======================

/-- The `SendResult` of src/transactionManager.ts (optional fields are absent
when the source leaves them `undefined`). -/
structure SendResult where
  success : Bool
  txHash : Option String := none
  explorerUrl : Option String := none
  error : Option String := none
  retryable : Option Bool := none
  queueId : Option String := none
deriving DecidableEq

/-- The `QueuedTransaction` of src/transactionManager.ts. -/
structure QueuedTransaction where
  id : String
  chain : String
  fromAddress : String
  toAddress : String
  amount : String
  symbol : String
  encryptedPrivateKey : String
  retryCount : Nat
  maxRetries : Nat
  lastError : Option String := none
  createdAt : Nat
  nextRetryAt : Option Nat := none
deriving DecidableEq

/-- The `transactionQueue` map as a function. -/
def TxQueue : Type := String → Option QueuedTransaction

/-- The `queueTransaction(...)`: inserts a fresh entry with `retryCount: 0`
(the source's `maxRetries` parameter defaults to 3 at the call sites). -/
def queueTransaction (queue : TxQueue)
    (id chain fromAddress toAddress amount symbol encryptedPrivateKey : String)
    (maxRetries : Nat) (now : Nat) : TxQueue :=
  mset queue id
    { id := id, chain := chain, fromAddress := fromAddress,
      toAddress := toAddress, amount := amount, symbol := symbol,
      encryptedPrivateKey := encryptedPrivateKey, retryCount := 0,
      maxRetries := maxRetries, createdAt := now }

/-- The `processQueuedTransaction(id)`.  The dispatch outcome of the inner
`sendEVMTransaction` call is the `result` argument; `now` is `Date.now()`
in milliseconds.  Returns the updated queue and the reported result. -/
def processQueuedTransaction (queue : TxQueue) (id : String)
    (result : SendResult) (now : Nat) : TxQueue × SendResult :=
  match queue id with
  | none =>
    (queue, { success := false, error := some "Transaction not found in queue",
              retryable := some false })
  | some queuedTx =>
    if result.success then (mdelete queue id, result)
    else if result.retryable.getD false = true ∧
        queuedTx.retryCount < queuedTx.maxRetries then
      let tx2 : QueuedTransaction :=
        { queuedTx with
          retryCount := queuedTx.retryCount + 1,
          lastError := result.error,
          nextRetryAt := some (now + 2 ^ (queuedTx.retryCount + 1) * 1000) }
      (mset queue id tx2,
       { result with
         queueId := some id,
         error := some ((result.error.getD "undefined") ++ " (retry " ++
           toString tx2.retryCount ++ "/" ++ toString queuedTx.maxRetries ++
           " scheduled)") })
    else (mdelete queue id, result)

/-- The `getQueuedTransaction(id)`. -/
def getQueuedTransaction (queue : TxQueue) (id : String) :
    Option QueuedTransaction :=
  queue id

/-- The `getQueueStats()`: iterates the queue's values, counting `retrying`
(retryCount > 0) and `pending` (otherwise); the argument is the list of
values of `transactionQueue`. -/
def getQueueStats (txs : List QueuedTransaction) : Nat × Nat :=
  txs.foldl
    (fun acc tx => if tx.retryCount > 0 then (acc.1, acc.2 + 1)
                   else (acc.1 + 1, acc.2))
    (0, 0)

/-- Number of actual dispatch attempts (inner send calls) made while
repeatedly driving `processQueuedTransaction` over a trace of dispatch
outcomes: a call dispatches exactly when the entry is present. -/
def dispatchCount (queue : TxQueue) (id : String) :
    List (SendResult × Nat) → Nat
  | [] => 0
  | (r, t) :: rest =>
    (if (queue id).isSome then 1 else 0) +
      dispatchCount (processQueuedTransaction queue id r t).1 id rest

/-- Concrete queue entry used by witnesses. -/
def exampleQueuedTx : QueuedTransaction :=
  { id := "tx1", chain := "ETHEREUM", fromAddress := "",
    toAddress := "0xdead", amount := "1.0", symbol := "ETH",
    encryptedPrivateKey := "enc", retryCount := 0, maxRetries := 3,
    createdAt := 0 }

/-- Concrete retryable dispatch failure used by witnesses. -/
def exampleRetryFailure : SendResult :=
  { success := false, error := some "timeout of 5000ms exceeded",
    retryable := some true }

-- ==================== WEBHOOK STATUS STORE (src/webhooks.ts) ===============

/-- Lifecycle states of a `TransactionStatus` record. -/
inductive TxLifecycle where
  | pending
  | confirmed
  | failed
deriving DecidableEq

/-- The `TransactionStatus` of src/webhooks.ts (timestamps in ms). -/
structure TransactionStatus where
  txHash : String
  status : TxLifecycle
  confirmations : Nat
  chain : String
  timestamp : Nat
  fromAddress : Option String := none
  toAddress : Option String := none
  amount : Option String := none
  blockNumber : Option Nat := none
  blockHash : Option String := none
deriving DecidableEq

/-- The `transactionStatuses` map as a function. -/
def StatusStore : Type := String → Option TransactionStatus

/-- Value of one hexadecimal digit, `none` for a non-digit. -/
def hexDigitVal (c : Char) : Option Nat :=
  if c.isDigit then some (c.toNat - 48)
  else if 'a' ≤ c ∧ c ≤ 'f' then some (c.toNat - 87)
  else if 'A' ≤ c ∧ c ≤ 'F' then some (c.toNat - 55)
  else none

/-- Longest hex-digit run from the front; `none` when it is empty. -/
def parseHexAux : List Char → Option Nat → Option Nat
  | [], acc => acc
  | c :: cs, acc =>
    match hexDigitVal c with
    | some d => parseHexAux cs (some (acc.getD 0 * 16 + d))
    | none => acc

/-- Models JavaScript `parseInt(s, 16)`: optional `0x` prefix, then the
longest hexadecimal prefix; `none` models `NaN` (in particular for an
`undefined` argument). -/
def parseIntHex : Option String → Option Nat
  | none => none
  | some s =>
    let cs := s.toList
    let cs2 := if cs.take 2 = ['0', 'x'] ∨ cs.take 2 = ['0', 'X']
               then cs.drop 2 else cs
    parseHexAux cs2 none

/-- One entry of `event.activity` in an Alchemy `ADDRESS_ACTIVITY` webhook
(`value` carries `tx.value?.toString()`). -/
structure AlchemyActivity where
  hash : String
  blockNum : Option String
  fromAddress : Option String
  toAddress : Option String
  value : Option String
  blockHash : Option String
deriving DecidableEq

/-- The `TransactionStatus` built for one `ADDRESS_ACTIVITY` entry: present
(truthy) `blockNum` means confirmed with 1 confirmation, else pending. -/
def statusOfAlchemyActivity (network : String) (now : Nat)
    (tx : AlchemyActivity) : TransactionStatus :=
  { txHash := tx.hash,
    status := if jsTruthyStr tx.blockNum then .confirmed else .pending,
    confirmations := if jsTruthyStr tx.blockNum then 1 else 0,
    chain := strToUpper network,
    timestamp := now,
    fromAddress := tx.fromAddress,
    toAddress := tx.toAddress,
    amount := tx.value,
    blockNumber := parseIntHex tx.blockNum,
    blockHash := tx.blockHash }

/-- The `ADDRESS_ACTIVITY` handler: one upsert per activity entry, keyed by
transaction hash. -/
def ingestAlchemyAddressActivity (network : String)
    (activity : List AlchemyActivity) (now : Nat) (store : StatusStore) :
    StatusStore :=
  activity.foldl
    (fun st tx => mset st tx.hash (statusOfAlchemyActivity network now tx))
    store

/-- The `event.transaction` of an Alchemy `DROPPED_TRANSACTION` webhook. -/
structure AlchemyDroppedTx where
  hash : String
  fromAddress : Option String
  toAddress : Option String
deriving DecidableEq

/-- The `TransactionStatus` built by the `DROPPED_TRANSACTION` handler:
failed with 0 confirmations; chain is `event.network?.toUpperCase() ||
'ETHEREUM'`. -/
def statusOfDroppedTransaction (network : Option String)
    (tx : AlchemyDroppedTx) (now : Nat) : TransactionStatus :=
  { txHash := tx.hash,
    status := .failed,
    confirmations := 0,
    chain := jsOrStr (network.map strToUpper) "ETHEREUM",
    timestamp := now,
    fromAddress := tx.fromAddress,
    toAddress := tx.toAddress }

/-- The `DROPPED_TRANSACTION` handler: a single upsert keyed by hash. -/
def ingestAlchemyDroppedTransaction (network : Option String)
    (tx : AlchemyDroppedTx) (now : Nat) (store : StatusStore) : StatusStore :=
  mset store tx.hash (statusOfDroppedTransaction network tx now)

/-- The `chainMap` of the CryptoAPIs handler with its
`|| item.blockchain.toUpperCase()` fallback. -/
def cryptoApisChainMap (b : String) : String :=
  if b = "bitcoin" then "BITCOIN"
  else if b = "litecoin" then "LITECOIN"
  else if b = "dogecoin" then "DOGECOIN"
  else if b = "ethereum" then "ETHEREUM"
  else if b = "binance-smart-chain" then "BSC"
  else if b = "polygon" then "POLYGON"
  else strToUpper b

/-- The `data.item` of a CryptoAPIs `CONFIRMED_TX`/`UNCONFIRMED_TX` webhook
(sender/recipient are the collapsed `senders?.[0]?.address` paths;
`timestamp` is in unix seconds). -/
structure CryptoApisItem where
  transactionId : String
  confirmations : Option Nat
  blockchain : String
  timestamp : Nat
  senderAddress : Option String
  recipientAddress : Option String
  amount : Option String
  minedInBlockHeight : Option Nat
  minedInBlockHash : Option String
deriving DecidableEq

/-- The record built for `CONFIRMED_TX`: `item.confirmations || 1` (so a
falsy 0 becomes 1), timestamp scaled seconds → ms. -/
def statusOfConfirmedTx (item : CryptoApisItem) : TransactionStatus :=
  { txHash := item.transactionId,
    status := .confirmed,
    confirmations := jsOrNat item.confirmations 1,
    chain := cryptoApisChainMap item.blockchain,
    timestamp := item.timestamp * 1000,
    fromAddress := item.senderAddress,
    toAddress := item.recipientAddress,
    amount := item.amount,
    blockNumber := item.minedInBlockHeight,
    blockHash := item.minedInBlockHash }

/-- The record built for `UNCONFIRMED_TX`: pending, 0 confirmations,
arrival time. -/
def statusOfUnconfirmedTx (item : CryptoApisItem) (now : Nat) :
    TransactionStatus :=
  { txHash := item.transactionId,
    status := .pending,
    confirmations := 0,
    chain := cryptoApisChainMap item.blockchain,
    timestamp := now,
    fromAddress := item.senderAddress,
    toAddress := item.recipientAddress,
    amount := item.amount }

/-- The `CONFIRMED_TX` handler: a single upsert keyed by `transactionId`. -/
def ingestCryptoApisConfirmedTx (item : CryptoApisItem)
    (store : StatusStore) : StatusStore :=
  mset store item.transactionId (statusOfConfirmedTx item)

/-- The `UNCONFIRMED_TX` handler: a single upsert keyed by `transactionId`. -/
def ingestCryptoApisUnconfirmedTx (item : CryptoApisItem) (now : Nat)
    (store : StatusStore) : StatusStore :=
  mset store item.transactionId (statusOfUnconfirmedTx item now)

/-- One element of `transaction.ret` in a TronGrid webhook. -/
structure TronRet where
  contractRet : Option String
deriving DecidableEq

/-- The `req.body.transaction` of a TronGrid webhook (`amountVal` carries
`raw_data.contract[0].parameter.value.amount`; owner and destination are
the corresponding nested paths; `rawTimestamp` is
`raw_data?.timestamp`). -/
structure TronTransaction where
  txID : Option String
  hash : String
  ret : List TronRet
  rawTimestamp : Option Nat
  ownerAddress : Option String
  toAddress : Option String
  amountVal : Option Nat
deriving DecidableEq

/-- The `transaction.txID || transaction.hash`. -/
def tronTxHash (t : TronTransaction) : String := jsOrStr t.txID t.hash

/-- The `transaction.ret?.[0]?.contractRet === 'SUCCESS'`. -/
def tronContractSuccess (t : TronTransaction) : Bool :=
  match t.ret.head? with
  | some r => r.contractRet == some "SUCCESS"
  | none => false

/-- The record built by the TronGrid handler:
`raw_data?.timestamp || Date.now()` for the timestamp. -/
def statusOfTronTransaction (t : TronTransaction) (now : Nat) :
    TransactionStatus :=
  { txHash := tronTxHash t,
    status := if tronContractSuccess t then .confirmed else .pending,
    confirmations := if tronContractSuccess t then 1 else 0,
    chain := "TRON",
    timestamp := jsOrNat t.rawTimestamp now,
    fromAddress := t.ownerAddress,
    toAddress := t.toAddress,
    amount := t.amountVal.map toString }

/-- TronGrid handler: a single upsert keyed by `txID || hash`. -/
def ingestTronGrid (t : TronTransaction) (now : Nat) (store : StatusStore) :
    StatusStore :=
  mset store (tronTxHash t) (statusOfTronTransaction t now)

/-- Last write produced by a per-element writer over a list, starting from
`init` (mirrors the effect of folding upserts at a fixed key). -/
def lastWriteFold {α β : Type} (wr : α → Option β) (init : Option β)
    (as : List α) : Option β :=
  as.foldl (fun acc a => match wr a with | some v => some v | none => acc) init

/-- Concrete CryptoAPIs items used by the C4 witness: same hash, later one
carries different fields. -/
def exampleCryptoItem1 : CryptoApisItem :=
  ⟨"h1", some 2, "bitcoin", 1700000000, some "addr1", some "addr2",
   some "0.5", some 100, some "bh1"⟩

/-- Second CryptoAPIs notification for the same hash. -/
def exampleCryptoItem2 : CryptoApisItem :=
  ⟨"h1", some 3, "bitcoin", 1700000100, some "addr1", some "addr2",
   some "0.5", some 101, some "bh2"⟩

/-- Concrete TronGrid payload with a successful contract return code. -/
def exampleTronTx : TronTransaction :=
  ⟨some "th1", "fallbackhash", [⟨some "SUCCESS"⟩], some 1700000000000,
   some "Towner", some "Tdest", some 1000000⟩

/-- Concrete dropped-transaction payload for the same hash. -/
def exampleDroppedTx : AlchemyDroppedTx :=
  ⟨"th1", some "0xa", some "0xb"⟩

-- ==================== CHAIN CONFIGURATION ==================================

/-- One entry of `CHAIN_CONFIG` in src/transactionManager.ts.
`gasMultiplierPct` holds `Math.floor(gasMultiplier * 100)` (the only form in
which the float multiplier is consumed): 1.2 → 120, 1.1 → 110, 1.3 → 130. -/
structure EVMChainConfig where
  chainId : Nat
  nativeCurrency : String
  explorer : String
  gasMultiplierPct : Nat
deriving DecidableEq

/-- The `CHAIN_CONFIG` record (RPC endpoint lists elided: endpoint probing
is collapsed into the environment's provider result). -/
def CHAIN_CONFIG : String → Option EVMChainConfig
  | "ETHEREUM" => some ⟨1, "ETH", "https://etherscan.io/tx/", 120⟩
  | "BSC" => some ⟨56, "BNB", "https://bscscan.com/tx/", 110⟩
  | "POLYGON" => some ⟨137, "MATIC", "https://polygonscan.com/tx/", 130⟩
  | _ => none

/-- An ERC20/TRC20 token descriptor. -/
structure TokenConfig where
  address : String
  decimals : Nat
deriving DecidableEq

/-- The `ERC20_TOKENS` table. -/
def ERC20_TOKENS : String → String → Option TokenConfig
  | "ETHEREUM", "USDT" =>
    some ⟨"0xdAC17F958D2ee523a2206206994597C13D831ec7", 6⟩
  | "ETHEREUM", "USDC" =>
    some ⟨"0xA0b86991c6218b36c1d19D4a2e9Eb0cE3606eB48", 6⟩
  | "BSC", "USDT" => some ⟨"0x55d398326f99059fF775485246999027B3197955", 18⟩
  | "BSC", "USDC" => some ⟨"0x8AC76a51cc950d9822D68b83fE1Ad97B32Cd580d", 18⟩
  | "POLYGON", "USDT" =>
    some ⟨"0xc2132D05D31c914a87C6611C10748AEb04B58e8F", 6⟩
  | "POLYGON", "USDC" =>
    some ⟨"0x2791Bca1f2de4661ED88A30C99A7a9449Aa84174", 6⟩
  | _, _ => none

/-- The `TRC20_TOKENS` table of the TRON manager. -/
def TRC20_TOKENS : String → Option TokenConfig
  | "USDT" => some ⟨"TR7NHqjeKQxGTCi8q8ZY4pL8otSzgjLj6t", 6⟩
  | "USDC" => some ⟨"TEkxiTehnzSmSe2XqrBj4w32RUN966rdz8", 6⟩
  | _ => none

/-- Stand-in for the external ethers `formatUnits(value, decimals)`: the
claims never inspect the rendered decimal string, only that it is a total
function of the integer value and the decimals. -/
def formatUnits (value decimals : Nat) : String :=
  toString value ++ "e-" ++ toString decimals

/-- ethers `formatEther` = `formatUnits _ 18`. -/
def formatEther (value : Nat) : String := formatUnits value 18

-- ==================== FAILURE CLASSIFICATION ===============================

/-- The retryability test in the catch block of `sendEVMTransaction`. -/
def classifyEVMRetryable (message : String) : Bool :=
  strIncludes message "nonce" || strIncludes message "replacement" ||
  strIncludes message "timeout" || strIncludes message "network" ||
  strIncludes message "ETIMEDOUT" || strIncludes message "rate limit"

/-- The retryability test in the catch block of `sendUTXOTransaction`:
`message.includes('insufficient') === false &&
message.includes('invalid') === false`. -/
def classifyUTXORetryable (message : String) : Bool :=
  (strIncludes message "insufficient" == false) &&
  (strIncludes message "invalid" == false)

/-- The retryability test in the catch block of `sendTronTransaction`
(applied to the hex-decoded message). -/
def classifyTronRetryable (message : String) : Bool :=
  strIncludes message "timeout" || strIncludes message "network" ||
  strIncludes message "bandwidth"

/-- Modelled from the spec's words in claim C3, for comparison with the
code's classifiers: a message "indicates" a retryable condition when it
contains a nonce-conflict, replacement-underpriced, timeout (including the
ETIMEDOUT code), network-disconnection, or rate-limiting marker. -/
def specRetryableIndicator (message : String) : Bool :=
  strIncludes message "nonce" || strIncludes message "replacement" ||
  strIncludes message "timeout" || strIncludes message "ETIMEDOUT" ||
  strIncludes message "network" || strIncludes message "rate limit"

/-- Drop whitespace from both ends (models `String.prototype.trim`). -/
def strTrim (s : String) : String :=
  String.mk
    (((s.toList.dropWhile Char.isWhitespace).reverse.dropWhile
      Char.isWhitespace).reverse)

/-- Numeric value of a hex digit with the source's `parseInt` semantics on
pre-validated digits. -/
def hexValOfChar (c : Char) : Nat := (hexDigitVal c).getD 0

/-- Returns true when the character is a hexadecimal digit. -/
def isHexDigitChar (c : Char) : Bool := (hexDigitVal c).isSome

/-- Consecutive hex pairs to character codes (the decode loop of the TRON
catch block). -/
def hexPairsToChars : List Char → List Char
  | c1 :: c2 :: rest =>
    Char.ofNat (hexValOfChar c1 * 16 + hexValOfChar c2) ::
      hexPairsToChars rest
  | _ => []

/-- The TRON catch block's hex decoding: an all-hex even-length message is
decoded pairwise, stripped of non-printable characters, and trimmed;
anything else passes through. -/
def decodeTronMessage (m : String) : String :=
  let cs := m.toList
  if 0 < cs.length ∧ cs.all isHexDigitChar ∧ cs.length % 2 = 0 then
    strTrim (String.mk ((hexPairsToChars cs).filter
      (fun c => decide (32 ≤ c.toNat ∧ c.toNat ≤ 126))))
  else m

-- ==================== GAS ESTIMATION =======================================

/-- The `GasEstimate` of src/transactionManager.ts.  `estimatedCostWei` holds
the wei value whose `formatEther` rendering the source stores. -/
structure GasEstimate where
  gasLimit : Nat
  maxFeePerGas : Nat
  maxPriorityFeePerGas : Nat
  estimatedCostWei : Nat
deriving DecidableEq

/-- The `estimateGas(provider, chain, tx)`.  `txHasData` is `!!tx.data`;
`gasEstimateResult` is `provider.estimateGas(tx)` and `feeData` is
`provider.getFeeData()` (its two optional EIP-1559 fields).  A failing gas
estimate falls back to fixed defaults inside an internal try/catch; a
failing `getFeeData` call is NOT caught here and propagates
(`.error`).  Fee fallbacks are 50 gwei / 2 gwei. -/
def estimateGas (gasMultiplierPct : Nat) (txHasData : Bool)
    (gasEstimateResult : Except String Nat)
    (feeData : Except String (Option Nat × Option Nat)) :
    Except String GasEstimate :=
  let gasLimit : Nat :=
    match gasEstimateResult with
    | .ok g => g * gasMultiplierPct / 100
    | .error _ => if txHasData then 100000 else 21000
  match feeData with
  | .error e => .error e
  | .ok (mf, mp) =>
    let maxFeePerGas :=
      match mf with
      | some f => f * 120 / 100
      | none => 50000000000
    let maxPriorityFeePerGas :=
      match mp with
      | some p => p * 120 / 100
      | none => 2000000000
    .ok ⟨gasLimit, maxFeePerGas, maxPriorityFeePerGas,
         gasLimit * maxFeePerGas⟩

-- ==================== EVM SEND =============================================

/-- The three fee levels; the multiplier is applied to both fee fields. -/
inductive FeeLevel where
  | economy
  | standard
  | fast
deriving DecidableEq

/-- The `feeLevel === 'fast' ? 150 : feeLevel === 'economy' ? 80 : 100`. -/
def evmFeeMultiplierPct : FeeLevel → Nat
  | .fast => 150
  | .economy => 80
  | .standard => 100

/-- Environment of one `sendEVMTransaction` call: each provider/library
interaction that can reject is an `Except` field. -/
structure EVMEnv where
  decryptResult : Except String String
  providerResult : Except String Unit
  providerChainTag : String
  walletAddress : String
  amountParsesPositive : Bool
  parseTokenAmount : Except String Nat
  parseEtherAmount : Except String Nat
  tokenBalance : Except String Nat
  nativeBalance : Except String Nat
  transactionCount : Except String Nat
  gasEstimateResult : Except String Nat
  feeData : Except String (Option Nat × Option Nat)
  signResult : Except String Unit
  broadcastResult : Except String String

/-- Outcome of one `sendEVMTransaction` call: the returned result, the
nonce cache afterwards, and whether signing / broadcasting was reached. -/
structure EVMSendOutcome where
  result : SendResult
  cache : NonceCache
  signAttempted : Bool
  broadcastAttempted : Bool

/-- The `Insufficient ${symbol} balance. Have: ..., Need: ...`. -/
def insufficientBalanceMsg (symbol haveAmt needAmt : String) : String :=
  "Insufficient " ++ symbol ++ " balance. Have: " ++ haveAmt ++ ", Need: " ++
    needAmt

/-- The `Insufficient balance for amount + gas. Need: ...`. -/
def insufficientGasMsg (totalCost : Nat) (symbol : String) : String :=
  "Insufficient balance for amount + gas. Need: " ++ formatEther totalCost ++
    " " ++ symbol

/-- The catch block of `sendEVMTransaction`: classify retryability; on a
message containing 'nonce', call `invalidateNonceCache(config.chainId,
'unknown')` — the source passes the literal string 'unknown', not the
sender address. -/
def evmCatch (chainId : Nat) (cache : NonceCache) (message : String) :
    SendResult × NonceCache :=
  let cache2 := if strIncludes message "nonce"
                then invalidateNonceCache cache (toString chainId) "unknown"
                else cache
  ({ success := false, error := some message,
     retryable := some (classifyEVMRetryable message) }, cache2)

/-- Wraps `evmCatch` into a full outcome with the given progress flags. -/
def evmCaught (config : EVMChainConfig) (cache : NonceCache)
    (message : String) (signA broadcastA : Bool) : EVMSendOutcome :=
  ⟨(evmCatch config.chainId cache message).1,
   (evmCatch config.chainId cache message).2, signA, broadcastA⟩

/-- Signing and broadcasting, the last phase of `sendEVMTransaction`. -/
def evmFinalPhase (config : EVMChainConfig) (cache2 : NonceCache)
    (env : EVMEnv) : EVMSendOutcome :=
  match env.signResult with
  | .error m => evmCaught config cache2 m true false
  | .ok _ =>
    match env.broadcastResult with
    | .error m => evmCaught config cache2 m true true
    | .ok txHash =>
      ⟨{ success := true, txHash := some txHash,
         explorerUrl := some (config.explorer ++ txHash) }, cache2, true, true⟩

/-- Nonce allocation, gas estimation, fee-level scaling and — for native
transfers — the amount+gas balance check, then the final phase. -/
def evmSubmitPhase (config : EVMChainConfig) (isToken : Bool)
    (valueWei : Nat) (symbol : String) (feeLevel : FeeLevel) (env : EVMEnv)
    (cache : NonceCache) (now : Nat) : EVMSendOutcome :=
  match env.transactionCount with
  | .error m => evmCaught config cache m false false
  | .ok onChainNonce =>
    let cache2 := (getNextNonce cache env.providerChainTag env.walletAddress
      now onChainNonce).2
    match estimateGas config.gasMultiplierPct isToken env.gasEstimateResult
        env.feeData with
    | .error m => evmCaught config cache2 m false false
    | .ok gasEstimate =>
      let feeMultiplier := evmFeeMultiplierPct feeLevel
      let gasLimit := gasEstimate.gasLimit
      let maxFeePerGas := gasEstimate.maxFeePerGas * feeMultiplier / 100
      if isToken = false then
        let totalCost := valueWei + gasLimit * maxFeePerGas
        match env.nativeBalance with
        | .error m => evmCaught config cache2 m false false
        | .ok balance2 =>
          if balance2 < totalCost then
            ⟨{ success := false,
               error := some (insufficientGasMsg totalCost symbol),
               retryable := some false }, cache2, false, false⟩
          else evmFinalPhase config cache2 env
      else evmFinalPhase config cache2 env

/-- The `sendEVMTransaction(chain, encryptedPrivateKey, toAddress, amount,
symbol, feeLevel)`: validation, balance checks, nonce allocation, gas
estimation, signing and broadcasting, with the catch block applied at every
rejecting step. -/
def sendEVMTransaction (chain toAddress amount symbol : String)
    (feeLevel : FeeLevel) (env : EVMEnv) (cache : NonceCache) (now : Nat) :
    EVMSendOutcome :=
  match CHAIN_CONFIG chain with
  | none =>
    ⟨{ success := false, error := some ("Unsupported chain: " ++ chain),
       retryable := some false }, cache, false, false⟩
  | some config =>
    match env.decryptResult with
    | .error m => evmCaught config cache m false false
    | .ok privateKey =>
      if privateKey = "" ∨ privateKey.length < 64 then
        ⟨{ success := false, error := some "Invalid or corrupted private key",
           retryable := some false }, cache, false, false⟩
      else
        match env.providerResult with
        | .error m => evmCaught config cache m false false
        | .ok _ =>
          if ¬ env.amountParsesPositive then
            ⟨{ success := false, error := some "Invalid amount",
               retryable := some false }, cache, false, false⟩
          else
            match ERC20_TOKENS chain symbol with
            | some tokenConfig =>
              match env.parseTokenAmount with
              | .error m => evmCaught config cache m false false
              | .ok tokenAmount =>
                match env.tokenBalance with
                | .error m => evmCaught config cache m false false
                | .ok balance =>
                  if balance < tokenAmount then
                    ⟨{ success := false,
                       error := some (insufficientBalanceMsg symbol
                         (formatUnits balance tokenConfig.decimals) amount),
                       retryable := some false }, cache, false, false⟩
                  else
                    evmSubmitPhase config true 0 symbol feeLevel env cache now
            | none =>
              match env.parseEtherAmount with
              | .error m => evmCaught config cache m false false
              | .ok amountWei =>
                match env.nativeBalance with
                | .error m => evmCaught config cache m false false
                | .ok balance =>
                  if balance < amountWei then
                    ⟨{ success := false,
                       error := some (insufficientBalanceMsg symbol
                         (formatEther balance) amount),
                       retryable := some false }, cache, false, false⟩
                  else
                    evmSubmitPhase config false amountWei symbol feeLevel env
                      cache now

-- ==================== FEE ESTIMATION ENDPOINT ==============================

/-- Result of `estimateTransactionFee`. -/
structure FeeEstimateResult where
  success : Bool
  estimatedFee : Option String := none
  gasLimit : Option String := none
  error : Option String := none
deriving DecidableEq

/-- Environment of one `estimateTransactionFee` call. -/
structure FeeEnv where
  providerResult : Except String Unit
  parseAmount : Except String Nat
  gasEstimateResult : Except String Nat
  feeData : Except String (Option Nat × Option Nat)

/-- The `estimateTransactionFee(chain, from, to, amount, symbol)`: builds the
transaction shape (token transfers carry calldata), runs `estimateGas`, and
reports its cost; any rejection inside the try block lands in the catch,
which returns `success: false` with the error message. -/
def estimateTransactionFee (chain symbol : String) (env : FeeEnv) :
    FeeEstimateResult :=
  match CHAIN_CONFIG chain with
  | none =>
    { success := false, error := some ("Unsupported chain: " ++ chain) }
  | some config =>
    match env.providerResult with
    | .error m => { success := false, error := some m }
    | .ok _ =>
      match env.parseAmount with
      | .error m => { success := false, error := some m }
      | .ok _ =>
        match estimateGas config.gasMultiplierPct
            (ERC20_TOKENS chain symbol).isSome env.gasEstimateResult
            env.feeData with
        | .error m => { success := false, error := some m }
        | .ok ge =>
          { success := true,
            estimatedFee := some (formatEther ge.estimatedCostWei),
            gasLimit := some (toString ge.gasLimit) }

-- ==================== UTXO MANAGER (src/utxoTransactionManager.ts) =========

/-- One entry of the UTXO `CHAIN_CONFIG`. -/
structure UTXOChainConfig where
  blockchain : String
  network : String
  explorer : String
  minConfirmations : Nat
deriving DecidableEq

/-- The UTXO `CHAIN_CONFIG` (the NETWORK env var is the `testnet` flag). -/
def UTXO_CHAIN_CONFIG (testnet : Bool) : String → Option UTXOChainConfig
  | "BITCOIN" =>
    some ⟨"bitcoin", if testnet then "testnet" else "mainnet",
      "https://blockstream.info/tx/", 2⟩
  | "LITECOIN" =>
    some ⟨"litecoin", if testnet then "testnet" else "mainnet",
      "https://blockchair.com/litecoin/transaction/", 6⟩
  | "DOGECOIN" =>
    some ⟨"dogecoin", if testnet then "testnet" else "mainnet",
      "https://dogechain.info/tx/", 6⟩
  | _ => none

/-- The `data.item` of the create-and-sign CryptoAPIs call. -/
structure UTXOCreateData where
  transactionId : Option String
  signedTransactionHex : Option String
deriving DecidableEq

/-- Environment of one `sendUTXOTransaction` call. -/
structure UTXOEnv where
  xpubDecrypt : Except String String
  wifDecrypt : Except String String
  createResult : Except String UTXOCreateData
  broadcastResult : Except String (Option String)

/-- The catch block of `sendUTXOTransaction`. -/
def utxoCatch (message : String) : SendResult :=
  { success := false, error := some message,
    retryable := some (classifyUTXORetryable message) }

/-- The `sendUTXOTransaction(chain, encryptedXpub, encryptedWif, toAddress,
amount, feeLevel)`: decrypts the keys, asks CryptoAPIs to create-and-sign,
then broadcasts; every axios rejection lands in the catch. -/
def sendUTXOTransaction (chain : String) (testnet : Bool) (env : UTXOEnv) :
    SendResult :=
  match UTXO_CHAIN_CONFIG testnet chain with
  | none =>
    { success := false, error := some ("Unsupported chain: " ++ chain),
      retryable := some false }
  | some config =>
    match env.xpubDecrypt with
    | .error m => utxoCatch m
    | .ok xpub =>
      match env.wifDecrypt with
      | .error m => utxoCatch m
      | .ok wif =>
        if xpub = "" ∨ wif = "" then
          { success := false,
            error := some "Invalid or corrupted wallet keys",
            retryable := some false }
        else
          match env.createResult with
          | .error m => utxoCatch m
          | .ok txData =>
            if jsTruthyStr txData.transactionId = false then
              { success := false,
                error := some "Failed to create transaction",
                retryable := some true }
            else
              match env.broadcastResult with
              | .error m => utxoCatch m
              | .ok txHashOpt =>
                if jsTruthyStr txHashOpt = false then
                  { success := false,
                    error := some "Failed to broadcast transaction",
                    retryable := some true }
                else
                  { success := true, txHash := some (jsOrStr txHashOpt ""),
                    explorerUrl :=
                      some (config.explorer ++ jsOrStr txHashOpt "") }

/-- Result of `estimateUTXOFee`. -/
structure UTXOFeeResult where
  estimatedFee : String
  feeRate : String
  error : Option String := none
deriving DecidableEq

/-- The `estimateUTXOFee(chain, from, to, amount)`: on a provider failure,
returns the per-chain default fee constants (`defaults[chain] || '0.001'`)
with the note 'Using default fee estimate'; the `apiResult` carries the
optional `estimatedFee`/`feeRate` strings of a successful response. -/
def estimateUTXOFee (chain : String) (testnet : Bool)
    (apiResult : Except String (Option String × Option String)) :
    UTXOFeeResult :=
  match UTXO_CHAIN_CONFIG testnet chain with
  | none =>
    { estimatedFee := "0", feeRate := "0",
      error := some ("Unsupported chain: " ++ chain) }
  | some _ =>
    match apiResult with
    | .ok item =>
      { estimatedFee := jsOrStr item.1 "0", feeRate := jsOrStr item.2 "0" }
    | .error _ =>
      { estimatedFee :=
          if chain = "BITCOIN" then "0.00005"
          else if chain = "LITECOIN" then "0.001"
          else if chain = "DOGECOIN" then "1"
          else "0.001",
        feeRate := "0",
        error := some "Using default fee estimate" }

-- ==================== TRON MANAGER =========================================

/-- The `tronWeb.trx.sendRawTransaction` result shape. -/
structure TronSendRawResult where
  result : Bool
  txid : String
  message : Option String
deriving DecidableEq

/-- Environment of one `sendTronTransaction` call.  `amountSun` is
`Math.floor(numAmount * 1e6)`; `tokenAmount` is
`Math.floor(numAmount * 10^decimals)`. -/
structure TronSendEnv where
  decryptResult : Except String String
  fromAddressValid : Bool
  toAddressValid : Bool
  amountParsesPositive : Bool
  amountSun : Nat
  tokenAmount : Nat
  trxBalance : Except String Nat
  sendTrxResult : Except String TronSendRawResult
  tokenBalance : Except String Nat
  trc20SendResult : Except String String

/-- The catch block of `sendTronTransaction`: hex-decode, then classify. -/
def tronCatch (message : String) : SendResult :=
  let decodedMessage := decodeTronMessage message
  { success := false, error := some decodedMessage,
    retryable := some (classifyTronRetryable decodedMessage) }

/-- The `sendTronTransaction(encryptedPrivateKey, toAddress, amount, symbol)`. -/
def sendTronTransaction (amount symbol : String) (env : TronSendEnv) :
    SendResult :=
  match env.decryptResult with
  | .error m => tronCatch m
  | .ok privateKey =>
    if privateKey = "" ∨ privateKey.length < 64 then
      { success := false, error := some "Invalid or corrupted private key",
        retryable := some false }
    else if ¬ env.amountParsesPositive then
      { success := false, error := some "Invalid amount",
        retryable := some false }
    else if ¬ (env.fromAddressValid ∧ env.toAddressValid) then
      { success := false, error := some "Invalid TRON address",
        retryable := some false }
    else if symbol = "TRX" then
      match env.trxBalance with
      | .error m => tronCatch m
      | .ok balance =>
        if balance < env.amountSun then
          { success := false,
            error := some ("Insufficient TRX balance. Have: " ++
              formatUnits balance 6 ++ ", Need: " ++ amount),
            retryable := some false }
        else
          match env.sendTrxResult with
          | .error m => tronCatch m
          | .ok r =>
            if r.result then
              { success := true, txHash := some r.txid,
                explorerUrl :=
                  some ("https://tronscan.org/#/transaction/" ++ r.txid) }
            else
              { success := false,
                error := some (jsOrStr r.message "Transaction failed"),
                retryable := some true }
    else
      match TRC20_TOKENS symbol with
      | some _tokenConfig =>
        match env.trxBalance with
        | .error m => tronCatch m
        | .ok trxBal =>
          if trxBal < 15 * 1000000 then
            { success := false,
              error := some
                ("Insufficient TRX for network fees. Need at least 15 TRX, have: "
                  ++ formatUnits trxBal 6),
              retryable := some false }
          else
            match env.tokenBalance with
            | .error m => tronCatch m
            | .ok tokenBal =>
              if tokenBal < env.tokenAmount then
                { success := false,
                  error := some ("Insufficient " ++ symbol ++ " balance"),
                  retryable := some false }
              else
                match env.trc20SendResult with
                | .error m => tronCatch m
                | .ok txHash =>
                  { success := true, txHash := some txHash,
                    explorerUrl :=
                      some ("https://tronscan.org/#/transaction/" ++ txHash) }
      | none =>
        { success := false, error := some ("Unsupported token: " ++ symbol),
          retryable := some false }

-- ==================== BALANCE FETCHING =====================================

/-- Result shape of the balance operations. -/
structure BalanceResult where
  balance : String
  error : Option String := none
deriving DecidableEq

/-- Environment of one `getEVMBalanceRobust` call. -/
structure BalanceEnv where
  providerResult : Except String Unit
  tokenBalance : Except String Nat
  nativeBalance : Except String Nat

/-- The `getEVMBalanceRobust(chain, address, symbol)`: total — every provider
rejection is caught and becomes `{balance: '0', error}`. -/
def getEVMBalanceRobust (chain symbol : String) (env : BalanceEnv) :
    BalanceResult :=
  match CHAIN_CONFIG chain with
  | none => { balance := "0", error := some ("Unsupported chain: " ++ chain) }
  | some _ =>
    match env.providerResult with
    | .error m => { balance := "0", error := some m }
    | .ok _ =>
      match ERC20_TOKENS chain symbol with
      | some tokenConfig =>
        match env.tokenBalance with
        | .error m => { balance := "0", error := some m }
        | .ok b => { balance := formatUnits b tokenConfig.decimals }
      | none =>
        match env.nativeBalance with
        | .error m => { balance := "0", error := some m }
        | .ok b => { balance := formatEther b }

/-- Environment of one `getTronBalance` call. -/
structure TronBalanceEnv where
  trxBalance : Except String Nat
  tokenBalance : Except String Nat

/-- The `getTronBalance(address, symbol)`: total — rejections become
`{balance: '0', error}`, and an unknown token is the defined
`{balance: '0', error: 'Unknown token: ...'}` outcome. -/
def getTronBalance (symbol : String) (env : TronBalanceEnv) : BalanceResult :=
  if symbol = "TRX" then
    match env.trxBalance with
    | .error m => { balance := "0", error := some m }
    | .ok b => { balance := formatUnits b 6 }
  else
    match TRC20_TOKENS symbol with
    | some tokenConfig =>
      match env.tokenBalance with
      | .error m => { balance := "0", error := some m }
      | .ok b => { balance := formatUnits b tokenConfig.decimals }
    | none => { balance := "0", error := some ("Unknown token: " ++ symbol) }

/-- A 64-character decrypted key accepted by the length heuristic. -/
def evmTestKey : String :=
  "abcdefabcdefabcdefabcdefabcdefabcdefabcdefabcdefabcdefabcdefabcd"

/-- Environment of a send that passes every check but whose broadcast is
rejected with a nonce error. -/
def exampleNonceEnv : EVMEnv :=
  { decryptResult := .ok evmTestKey,
    providerResult := .ok (),
    providerChainTag := "1",
    walletAddress := "0xAbC",
    amountParsesPositive := true,
    parseTokenAmount := .ok 0,
    parseEtherAmount := .ok 1000,
    tokenBalance := .ok 0,
    nativeBalance := .ok 1000000000000000000,
    transactionCount := .ok 5,
    gasEstimateResult := .ok 21000,
    feeData := .ok (some 100, some 10),
    signResult := .ok (),
    broadcastResult := .error "nonce too low" }

/-- Environment of a native send from a balance of 1.0 ether against a
transfer of 1.5 ether. -/
def exampleInsufficientEnv : EVMEnv :=
  { decryptResult := .ok evmTestKey,
    providerResult := .ok (),
    providerChainTag := "1",
    walletAddress := "0xabc",
    amountParsesPositive := true,
    parseTokenAmount := .ok 0,
    parseEtherAmount := .ok 1500000000000000000,
    tokenBalance := .ok 0,
    nativeBalance := .ok 1000000000000000000,
    transactionCount := .ok 0,
    gasEstimateResult := .ok 21000,
    feeData := .ok (none, none),
    signResult := .ok (),
    broadcastResult := .ok "0xhash" }

-- ==================== THEOREMS ====================

/-- C1: every nonce allocation consumes the authoritative pending count; a
fresh cached entry (age strictly under the 30s TTL) yields
`max(cached, authoritative)` with the cache advanced to one past the
returned value; otherwise the authoritative count is returned and the cache
seeded with `authoritative + 1`; the returned nonce is never below the
authoritative pending count observed during the call. -/
theorem claim1_nonce_allocation (cache : NonceCache) (chainTag address : String)
    (now onChainNonce : Nat) :
    onChainNonce ≤ (getNextNonce cache chainTag address now onChainNonce).1 ∧
    (∀ c, cache (mkNonceCacheKey chainTag address) = some c →
      now - c.timestamp < NONCE_CACHE_TTL →
      (getNextNonce cache chainTag address now onChainNonce).1 =
        max c.nonce onChainNonce ∧
      (getNextNonce cache chainTag address now onChainNonce).2
          (mkNonceCacheKey chainTag address) =
        some ⟨(getNextNonce cache chainTag address now onChainNonce).1 + 1, now⟩) ∧
    ((∀ c, cache (mkNonceCacheKey chainTag address) = some c →
        NONCE_CACHE_TTL ≤ now - c.timestamp) →
      (getNextNonce cache chainTag address now onChainNonce).1 = onChainNonce ∧
      (getNextNonce cache chainTag address now onChainNonce).2
          (mkNonceCacheKey chainTag address) =
        some ⟨onChainNonce + 1, now⟩) := by
  refine ⟨?_, ?_, ?_⟩
  · simp only [getNextNonce]
    cases cache (mkNonceCacheKey chainTag address) with
    | none => simp
    | some c =>
      by_cases hf : now - c.timestamp < NONCE_CACHE_TTL
      · simp only [hf, if_true]
        exact le_max_right c.nonce onChainNonce
      · simp [hf]
  · intro c hsome hfresh
    simp only [getNextNonce]
    rw [hsome]
    simp [hfresh, mset]
  · intro hstale
    simp only [getNextNonce]
    cases hc : cache (mkNonceCacheKey chainTag address) with
    | none => simp [mset]
    | some c =>
      have h1 := hstale c hc
      have hnf : ¬ (now - c.timestamp < NONCE_CACHE_TTL) := by omega
      simp [hnf, mset]

/-- Witness for C1 at a concrete fresh cache entry: cached nonce 7 beats the
authoritative count 5, and the cache advances to 8. -/
theorem claim1_nonce_allocation_witness :
    (getNextNonce (fun k => if k = "1-0xab" then some ⟨7, 1000⟩ else none)
      "1" "0xAB" 2000 5).1 = 7 ∧
    (getNextNonce (fun k => if k = "1-0xab" then some ⟨7, 1000⟩ else none)
      "1" "0xAB" 2000 5).2 (mkNonceCacheKey "1" "0xAB") = some ⟨8, 2000⟩ := by
  have h2 := (claim1_nonce_allocation
      (fun k => if k = "1-0xab" then some ⟨7, 1000⟩ else none)
      "1" "0xAB" 2000 5).2.1 ⟨7, 1000⟩ (by decide) (by decide)
  refine ⟨?_, ?_⟩
  · rw [h2.1]
    decide
  · rw [h2.2, h2.1]
    decide

/-- Once an entry is absent from the queue, no trace dispatches it again. -/
theorem dispatchCount_absent (trace : List (SendResult × Nat)) :
    ∀ (queue : TxQueue) (id : String), queue id = none →
      dispatchCount queue id trace = 0 := by
  induction trace with
  | nil => intro queue id _; rfl
  | cons step rest ih =>
    intro queue id h
    obtain ⟨r, t⟩ := step
    have hq : (processQueuedTransaction queue id r t).1 = queue := by
      simp [processQueuedTransaction, h]
    simp [dispatchCount, h, hq, ih queue id h]

/-- A queue entry with `retryCount ≤ maxRetries` is dispatched at most
`maxRetries + 1 - retryCount` more times over any trace. -/
theorem dispatchCount_bound (trace : List (SendResult × Nat)) :
    ∀ (queue : TxQueue) (id : String) (tx : QueuedTransaction),
      queue id = some tx → tx.retryCount ≤ tx.maxRetries →
      dispatchCount queue id trace ≤ tx.maxRetries + 1 - tx.retryCount := by
  induction trace with
  | nil => intro queue id tx _ _; simp [dispatchCount]
  | cons step rest ih =>
    intro queue id tx hq hle
    obtain ⟨r, t⟩ := step
    simp only [dispatchCount, hq, Option.isSome_some, if_true]
    by_cases hs : r.success
    · have hdel : (processQueuedTransaction queue id r t).1 id = none := by
        simp [processQueuedTransaction, hq, hs, mdelete]
      have := dispatchCount_absent rest _ id hdel
      omega
    · by_cases hcond : r.retryable.getD false = true ∧
          tx.retryCount < tx.maxRetries
      · have hset : (processQueuedTransaction queue id r t).1 id =
            some { tx with
              retryCount := tx.retryCount + 1,
              lastError := r.error,
              nextRetryAt := some (t + 2 ^ (tx.retryCount + 1) * 1000) } := by
          simp [processQueuedTransaction, hq, hs, hcond, mset]
        have hrec := ih _ id _ hset (by simp; omega)
        simp at hrec
        omega
      · have hdel : (processQueuedTransaction queue id r t).1 id = none := by
          simp [processQueuedTransaction, hq, hs, hcond, mdelete]
        have := dispatchCount_absent rest _ id hdel
        omega

/-- C2: on dispatch success the queue entry is removed; on a retryable
failure with `retryCount < maxRetries` the entry stays queued with
`retryCount` incremented by exactly one and
`nextRetryAt = now + 2^retryCount · 1000` ms (i.e. `2^retryCount` seconds,
for the incremented count); on a retryable failure at the retry cap, or on
any non-retryable failure, the entry is removed; and a fresh entry
(`retryCount = 0`) is dispatched at most `maxRetries + 1` times over any
trace of dispatch outcomes. -/
theorem claim2_retry_queue (queue : TxQueue) (id : String)
    (result : SendResult) (now : Nat) (tx : QueuedTransaction)
    (hq : queue id = some tx) :
    (result.success = true →
      (processQueuedTransaction queue id result now).1 id = none) ∧
    (result.success = false → result.retryable.getD false = true →
      tx.retryCount < tx.maxRetries →
      (processQueuedTransaction queue id result now).1 id =
        some { tx with
          retryCount := tx.retryCount + 1,
          lastError := result.error,
          nextRetryAt := some (now + 2 ^ (tx.retryCount + 1) * 1000) }) ∧
    (result.success = false →
      (result.retryable.getD false = false ∨ tx.maxRetries ≤ tx.retryCount) →
      (processQueuedTransaction queue id result now).1 id = none) ∧
    (tx.retryCount = 0 → ∀ trace : List (SendResult × Nat),
      dispatchCount queue id trace ≤ tx.maxRetries + 1) := by
  refine ⟨?_, ?_, ?_, ?_⟩
  · intro hs
    simp [processQueuedTransaction, hq, hs, mdelete]
  · intro hs hr hlt
    simp [processQueuedTransaction, hq, hs, hr, hlt, mset]
  · intro hs hor
    have hcond : ¬ (result.retryable.getD false = true ∧
        tx.retryCount < tx.maxRetries) := by
      rcases hor with h | h
      · intro hc; rw [hc.1] at h; cases h
      · intro hc; omega
    simp [processQueuedTransaction, hq, hs, hcond, mdelete]
  · intro h0 trace
    have := dispatchCount_bound trace queue id tx hq (by omega)
    omega

/-- Witness for C2: a retryable failure at `retryCount = 0` leaves the entry
queued with `retryCount = 1` and `nextRetryAt = 2000` ms (2 s backoff), and
a fresh entry is dispatched at most 4 times when `maxRetries = 3`. -/
theorem claim2_retry_queue_witness :
    (processQueuedTransaction
        (fun k => if k = "tx1" then some exampleQueuedTx else none)
        "tx1" exampleRetryFailure 0).1 "tx1" =
      some { exampleQueuedTx with
        retryCount := 1, lastError := some "timeout of 5000ms exceeded",
        nextRetryAt := some 2000 } ∧
    dispatchCount (fun k => if k = "tx1" then some exampleQueuedTx else none)
        "tx1" (List.replicate 9 (exampleRetryFailure, 0)) ≤
      exampleQueuedTx.maxRetries + 1 := by
  have h := claim2_retry_queue
    (fun k => if k = "tx1" then some exampleQueuedTx else none)
    "tx1" exampleRetryFailure 0 exampleQueuedTx (by decide)
  refine ⟨?_, ?_⟩
  · have h2 := h.2.1 (by decide) (by decide) (by decide)
    rw [h2]
    decide
  · exact h.2.2.2 (by decide) _

/-- Generalized accumulator form of `getQueueStats`. -/
theorem getQueueStats_foldl (txs : List QueuedTransaction) : ∀ p r : Nat,
    txs.foldl
      (fun acc tx => if tx.retryCount > 0 then (acc.1, acc.2 + 1)
                     else (acc.1 + 1, acc.2)) (p, r) =
    (p + (txs.filter (fun tx => tx.retryCount = 0)).length,
     r + (txs.filter (fun tx => 0 < tx.retryCount)).length) := by
  induction txs with
  | nil => intro p r; simp
  | cons tx txs ih =>
    intro p r
    by_cases h : 0 < tx.retryCount
    · have h0 : ¬ tx.retryCount = 0 := by omega
      simp only [List.foldl_cons, h, if_true, ih]
      simp [List.filter_cons, h, h0]
      omega
    · have h0 : tx.retryCount = 0 := by omega
      simp only [List.foldl_cons, h, if_false, ih]
      simp [List.filter_cons, h, h0]
      omega

/-- The two filters by `retryCount` partition the queue's entries. -/
theorem queueStats_partition (txs : List QueuedTransaction) :
    (txs.filter (fun tx => tx.retryCount = 0)).length +
      (txs.filter (fun tx => 0 < tx.retryCount)).length = txs.length := by
  induction txs with
  | nil => rfl
  | cons tx txs ih =>
    by_cases h0 : tx.retryCount = 0
    · have h1 : ¬ 0 < tx.retryCount := by omega
      simp [List.filter_cons, h0, h1]
      omega
    · have h1 : 0 < tx.retryCount := by omega
      simp [List.filter_cons, h0, h1]
      omega

/-- C10: queue statistics partition the queue exactly: `pending` counts the
entries with `retryCount = 0`, `retrying` counts the entries with
`retryCount > 0`, and the two add up to the queue's size. -/
theorem claim10_queue_stats (txs : List QueuedTransaction) :
    (getQueueStats txs).1 =
      (txs.filter (fun tx => tx.retryCount = 0)).length ∧
    (getQueueStats txs).2 =
      (txs.filter (fun tx => 0 < tx.retryCount)).length ∧
    (getQueueStats txs).1 + (getQueueStats txs).2 = txs.length := by
  have h := getQueueStats_foldl txs 0 0
  have hpart := queueStats_partition txs
  unfold getQueueStats
  rw [h]
  simp
  omega

/-- Unfolding a `lastWriteFold` over a cons cell. -/
theorem lastWriteFold_cons {α β : Type} (wr : α → Option β) (i : Option β)
    (a : α) (as : List α) :
    lastWriteFold wr i (a :: as) =
      lastWriteFold wr (match wr a with | some v => some v | none => i) as :=
  rfl

/-- The initial accumulator of `lastWriteFold` only matters when no element
writes. -/
theorem lastWriteFold_char {α β : Type} (wr : α → Option β) (as : List α) :
    ∀ i : Option β,
      lastWriteFold wr i as =
        match lastWriteFold wr none as with
        | some v => some v
        | none => i := by
  induction as with
  | nil => intro i; rfl
  | cons a as ih =>
    intro i
    rw [lastWriteFold_cons, lastWriteFold_cons]
    cases hw : wr a with
    | some v =>
      rw [ih (some v)]
      cases lastWriteFold wr none as <;> rfl
    | none =>
      exact ih i

/-- Folding the same write list twice equals folding it once. -/
theorem lastWriteFold_idem {α β : Type} (wr : α → Option β) (as : List α)
    (i : Option β) :
    lastWriteFold wr (lastWriteFold wr i as) as = lastWriteFold wr i as := by
  rw [lastWriteFold_char wr as (lastWriteFold wr i as),
      lastWriteFold_char wr as i]
  cases lastWriteFold wr none as <;> simp

/-- Pointwise description of the `ADDRESS_ACTIVITY` fold of upserts. -/
theorem ingestAlchemy_lookup (network : String) (now : Nat)
    (as : List AlchemyActivity) : ∀ (store : StatusStore) (k : String),
    ingestAlchemyAddressActivity network as now store k =
      lastWriteFold
        (fun tx => if k = tx.hash
                   then some (statusOfAlchemyActivity network now tx)
                   else none)
        (store k) as := by
  induction as with
  | nil => intro store k; rfl
  | cons a as ih =>
    intro store k
    simp only [ingestAlchemyAddressActivity, List.foldl_cons] at *
    rw [ih (mset store a.hash (statusOfAlchemyActivity network now a)) k]
    by_cases hk : k = a.hash <;>
      simp [mset, hk, lastWriteFold, List.foldl_cons]

/-- C4: webhook writes are idempotent upserts keyed by transaction hash:
re-ingesting the same `ADDRESS_ACTIVITY`, `CONFIRMED_TX` or
`UNCONFIRMED_TX` payload leaves the store unchanged, and a later payload
for the same hash fully replaces the stored record (the lookup afterwards
is determined by the later payload alone). -/
theorem claim4_status_upsert :
    (∀ (network : String) (activity : List AlchemyActivity) (now : Nat)
        (store : StatusStore),
      ingestAlchemyAddressActivity network activity now
          (ingestAlchemyAddressActivity network activity now store) =
        ingestAlchemyAddressActivity network activity now store) ∧
    (∀ (item : CryptoApisItem) (store : StatusStore),
      ingestCryptoApisConfirmedTx item
          (ingestCryptoApisConfirmedTx item store) =
        ingestCryptoApisConfirmedTx item store) ∧
    (∀ (item : CryptoApisItem) (now : Nat) (store : StatusStore),
      ingestCryptoApisUnconfirmedTx item now
          (ingestCryptoApisUnconfirmedTx item now store) =
        ingestCryptoApisUnconfirmedTx item now store) ∧
    (∀ (item1 item2 : CryptoApisItem) (store : StatusStore),
      item2.transactionId = item1.transactionId →
      ingestCryptoApisConfirmedTx item2
          (ingestCryptoApisConfirmedTx item1 store) item2.transactionId =
        some (statusOfConfirmedTx item2)) ∧
    (∀ (network : String) (a : AlchemyActivity) (item : CryptoApisItem)
        (now : Nat) (store : StatusStore),
      a.hash = item.transactionId →
      ingestAlchemyAddressActivity network [a] now
          (ingestCryptoApisConfirmedTx item store) a.hash =
        some (statusOfAlchemyActivity network now a)) := by
  refine ⟨?_, ?_, ?_, ?_, ?_⟩
  · intro network activity now store
    funext k
    rw [ingestAlchemy_lookup, ingestAlchemy_lookup]
    exact lastWriteFold_idem _ _ _
  · intro item store
    funext k
    by_cases hk : k = item.transactionId <;>
      simp [ingestCryptoApisConfirmedTx, mset, hk]
  · intro item now store
    funext k
    by_cases hk : k = item.transactionId <;>
      simp [ingestCryptoApisUnconfirmedTx, mset, hk]
  · intro item1 item2 store h
    simp [ingestCryptoApisConfirmedTx, mset]
  · intro network a item now store h
    simp [ingestAlchemyAddressActivity, ingestCryptoApisConfirmedTx, mset]

/-- Witness for C4 at concrete payloads: the second notification for hash
"h1" fully replaces the first one's record. -/
theorem claim4_status_upsert_witness :
    exampleCryptoItem2.transactionId = exampleCryptoItem1.transactionId ∧
    ingestCryptoApisConfirmedTx exampleCryptoItem2
        (ingestCryptoApisConfirmedTx exampleCryptoItem1 (fun _ => none))
        exampleCryptoItem2.transactionId =
      some (statusOfConfirmedTx exampleCryptoItem2) := by
  refine ⟨by decide, ?_⟩
  exact (claim4_status_upsert).2.2.2.1 exampleCryptoItem1 exampleCryptoItem2
    (fun _ => none) (by decide)

/-- C9: a TronGrid webhook whose transaction carries contract return code
SUCCESS stores the record for its hash as confirmed with 1 confirmation;
a dropped-transaction webhook for the same hash afterwards overwrites the
record entirely to failed with 0 confirmations. -/
theorem claim9_tron_confirm_then_drop (t : TronTransaction) (now1 : Nat)
    (network : Option String) (d : AlchemyDroppedTx) (now2 : Nat)
    (store : StatusStore) (hsucc : tronContractSuccess t = true)
    (hhash : d.hash = tronTxHash t) :
    (ingestTronGrid t now1 store) (tronTxHash t) =
      some (statusOfTronTransaction t now1) ∧
    (statusOfTronTransaction t now1).status = .confirmed ∧
    (statusOfTronTransaction t now1).confirmations = 1 ∧
    (ingestAlchemyDroppedTransaction network d now2
        (ingestTronGrid t now1 store)) (tronTxHash t) =
      some (statusOfDroppedTransaction network d now2) ∧
    (statusOfDroppedTransaction network d now2).status = .failed ∧
    (statusOfDroppedTransaction network d now2).confirmations = 0 := by
  refine ⟨?_, ?_, ?_, ?_, rfl, rfl⟩
  · simp [ingestTronGrid, mset]
  · simp [statusOfTronTransaction, hsucc]
  · simp [statusOfTronTransaction, hsucc]
  · simp [ingestAlchemyDroppedTransaction, mset, hhash]

/-- Witness for C9 at concrete payloads for hash "th1". -/
theorem claim9_tron_confirm_then_drop_witness :
    (ingestTronGrid exampleTronTx 1 (fun _ => none)) "th1" =
      some (statusOfTronTransaction exampleTronTx 1) ∧
    (statusOfTronTransaction exampleTronTx 1).status = .confirmed ∧
    (ingestAlchemyDroppedTransaction none exampleDroppedTx 2
        (ingestTronGrid exampleTronTx 1 (fun _ => none))) "th1" =
      some (statusOfDroppedTransaction none exampleDroppedTx 2) ∧
    (statusOfDroppedTransaction none exampleDroppedTx 2).status = .failed ∧
    (statusOfDroppedTransaction none exampleDroppedTx 2).confirmations = 0 := by
  have h := claim9_tron_confirm_then_drop exampleTronTx 1 none
    exampleDroppedTx 2 (fun _ => none) (by decide) (by decide)
  have hk : tronTxHash exampleTronTx = "th1" := by decide
  rw [hk] at h
  exact ⟨h.1, h.2.1, h.2.2.2.1, h.2.2.2.2.1, h.2.2.2.2.2⟩

/-- C3 counterexample: a provider failure whose message indicates none of
the retryable conditions of the claim ("unexpected server error") is
nevertheless classified RETRYABLE by the UTXO dispatcher, because its catch
block only tests for 'insufficient' and 'invalid'. -/
theorem claim3_counterexample :
    classifyUTXORetryable "unexpected server error" = true ∧
    specRetryableIndicator "unexpected server error" = false ∧
    (sendUTXOTransaction "BITCOIN" false
      { xpubDecrypt := .ok "xpub123", wifDecrypt := .ok "wif123",
        createResult := .error "unexpected server error",
        broadcastResult := .ok none }).retryable = some true := by
  refine ⟨by decide, by decide, by decide⟩

/-- C3 amended: the EVM dispatcher classifies retryable exactly the
substrings nonce / replacement / timeout / network / ETIMEDOUT / rate
limit (matching the spec's indicator list); the UTXO dispatcher classifies
retryable exactly when the message contains neither 'insufficient' nor
'invalid' (so unrecognized errors are retryable, not fatal); the TRON
dispatcher classifies retryable exactly the substrings timeout / network /
bandwidth of the decoded message; and each dispatcher's catch block reports
exactly its classifier's verdict. -/
theorem claim3_amended_classification (message : String) :
    (classifyEVMRetryable message = true ↔
      (strIncludes message "nonce" = true ∨
       strIncludes message "replacement" = true ∨
       strIncludes message "timeout" = true ∨
       strIncludes message "network" = true ∨
       strIncludes message "ETIMEDOUT" = true ∨
       strIncludes message "rate limit" = true)) ∧
    (classifyEVMRetryable message = specRetryableIndicator message) ∧
    (classifyUTXORetryable message = true ↔
      (strIncludes message "insufficient" = false ∧
       strIncludes message "invalid" = false)) ∧
    (classifyTronRetryable message = true ↔
      (strIncludes message "timeout" = true ∨
       strIncludes message "network" = true ∨
       strIncludes message "bandwidth" = true)) ∧
    ((utxoCatch message).retryable = some (classifyUTXORetryable message)) ∧
    ((tronCatch message).retryable =
      some (classifyTronRetryable (decodeTronMessage message))) ∧
    (∀ (chainId : Nat) (cache : NonceCache),
      (evmCatch chainId cache message).1.retryable =
        some (classifyEVMRetryable message)) := by
  refine ⟨?_, ?_, ?_, ?_, rfl, rfl, fun _ _ => rfl⟩
  · simp [classifyEVMRetryable, Bool.or_eq_true, or_assoc]
  · simp only [classifyEVMRetryable, specRetryableIndicator]
    cases strIncludes message "network" <;>
      cases strIncludes message "ETIMEDOUT" <;> simp
  · simp [classifyUTXORetryable, Bool.and_eq_true]
  · simp [classifyTronRetryable, Bool.or_eq_true, or_assoc]

/-- Witness for C3's amended classification at concrete messages. -/
theorem claim3_amended_classification_witness :
    classifyEVMRetryable "rate limit exceeded" = true ∧
    classifyUTXORetryable "invalid address" = false := by
  refine ⟨?_, ?_⟩
  · exact (claim3_amended_classification "rate limit exceeded").1.mpr
      (Or.inr (Or.inr (Or.inr (Or.inr (Or.inr (by decide))))))
  · have h2 := (claim3_amended_classification "invalid address").2.2.1
    cases hb : classifyUTXORetryable "invalid address" with
    | false => rfl
    | true =>
      have := h2.mp hb
      have hinv : strIncludes "invalid address" "invalid" = true := by decide
      rw [this.2] at hinv
      cases hinv

/-- C5 (code bug): an EVM broadcast rejected with 'nonce too low' leaves
the sender's own nonce-cache entry intact — the catch block calls
`invalidateNonceCache(config.chainId, 'unknown')`, deleting only the key
"1-unknown", so the freshly advanced entry for (chain 1, sender 0xabc)
survives and the next allocation within the TTL still consults it, contrary
to the claimed per-sender invalidation. -/
theorem claim5_nonce_invalidation_bug :
    (sendEVMTransaction "ETHEREUM" "0xdef" "0.001" "ETH" .standard
      exampleNonceEnv (fun _ => none) 1000).result.success = false ∧
    (sendEVMTransaction "ETHEREUM" "0xdef" "0.001" "ETH" .standard
      exampleNonceEnv (fun _ => none) 1000).result.retryable = some true ∧
    (sendEVMTransaction "ETHEREUM" "0xdef" "0.001" "ETH" .standard
      exampleNonceEnv (fun _ => none) 1000).cache
        (mkNonceCacheKey "1" "0xAbC") = some ⟨6, 1000⟩ ∧
    (sendEVMTransaction "ETHEREUM" "0xdef" "0.001" "ETH" .standard
      exampleNonceEnv (fun _ => none) 1000).cache
        (mkNonceCacheKey "1" "0xAbC") ≠ none := by
  refine ⟨by decide, by decide, by decide, by decide⟩

/-- C6: a native send on an account-model chain whose sender balance is
below the transfer amount returns the insufficient-balance failure with
`retryable = false`, leaving the nonce cache untouched and without reaching
the signing or broadcasting steps; and when the balance covers the amount
but not amount + estimated gas cost, the combined check fails the same way
before signing or broadcasting. -/
theorem claim6_insufficient_balance (chain toAddress amount symbol : String)
    (feeLevel : FeeLevel) (env : EVMEnv) (cache : NonceCache) (now : Nat)
    (config : EVMChainConfig) (privateKey : String) (amountWei balance : Nat)
    (hconfig : CHAIN_CONFIG chain = some config)
    (hnative : ERC20_TOKENS chain symbol = none)
    (hdecrypt : env.decryptResult = .ok privateKey)
    (hpk : 64 ≤ privateKey.length)
    (hprov : env.providerResult = .ok ())
    (hamt : env.amountParsesPositive = true)
    (hparse : env.parseEtherAmount = .ok amountWei)
    (hbal : env.nativeBalance = .ok balance) :
    (balance < amountWei →
      sendEVMTransaction chain toAddress amount symbol feeLevel env cache
          now =
        ⟨{ success := false,
           error := some (insufficientBalanceMsg symbol (formatEther balance)
             amount),
           retryable := some false }, cache, false, false⟩) ∧
    (∀ onChainNonce gasEstimate,
      env.transactionCount = .ok onChainNonce →
      estimateGas config.gasMultiplierPct false env.gasEstimateResult
          env.feeData = .ok gasEstimate →
      amountWei ≤ balance →
      balance < amountWei + gasEstimate.gasLimit *
          (gasEstimate.maxFeePerGas * evmFeeMultiplierPct feeLevel / 100) →
      (sendEVMTransaction chain toAddress amount symbol feeLevel env cache
          now).result =
        { success := false,
          error := some (insufficientGasMsg (amountWei +
            gasEstimate.gasLimit * (gasEstimate.maxFeePerGas *
              evmFeeMultiplierPct feeLevel / 100)) symbol),
          retryable := some false } ∧
      (sendEVMTransaction chain toAddress amount symbol feeLevel env cache
          now).signAttempted = false ∧
      (sendEVMTransaction chain toAddress amount symbol feeLevel env cache
          now).broadcastAttempted = false) := by
  have hpkcheck : ¬ (privateKey = "" ∨ privateKey.length < 64) := by
    rintro (h | h)
    · subst h
      exact absurd hpk (by decide)
    · omega
  refine ⟨?_, ?_⟩
  · intro hlt
    simp only [sendEVMTransaction, hconfig, hdecrypt, hpkcheck, hprov, hamt,
      hnative, hparse, hbal, if_neg, if_pos hlt, not_true, if_false]
  · intro onChainNonce gasEstimate htc hge hle hcost
    have hnlt : ¬ (balance < amountWei) := by omega
    simp only [sendEVMTransaction, hconfig, hdecrypt, hpkcheck, hprov, hamt,
      hnative, hparse, hbal, if_neg, hnlt, if_false, evmSubmitPhase, htc,
      hge]
    simp only [not_true, Bool.not_eq_true, if_neg]
    simp [hcost]

/-- Witness for C6: the spec's scenario — send 1.5 native from a balance of
1.0 — rejects before signing or broadcasting with retryable = false. -/
theorem claim6_insufficient_balance_witness :
    sendEVMTransaction "ETHEREUM" "0xdef" "1.5" "ETH" .standard
        exampleInsufficientEnv (fun _ => none) 0 =
      ⟨{ success := false,
         error := some (insufficientBalanceMsg "ETH"
           (formatEther 1000000000000000000) "1.5"),
         retryable := some false }, (fun _ => none), false, false⟩ := by
  exact (claim6_insufficient_balance "ETHEREUM" "0xdef" "1.5" "ETH"
    .standard exampleInsufficientEnv (fun _ => none) 0
    ⟨1, "ETH", "https://etherscan.io/tx/", 120⟩ evmTestKey
    1500000000000000000 1000000000000000000
    rfl rfl rfl (by decide) rfl rfl rfl rfl).1 (by decide)

/-- C7: the balance operations are total (the embedding returns a plain
record, modelling that every provider rejection is caught): a failed
provider probe yields `{balance: "0", error}` exactly, every result either
carries no error or the balance "0", and a successful fetch carries the
formatted balance with no error field — for the EVM and the TRON balance
paths alike. -/
theorem claim7_balance_robust (chain symbol : String) (env : BalanceEnv)
    (tenv : TronBalanceEnv) :
    ((getEVMBalanceRobust chain symbol env).error = none ∨
      (getEVMBalanceRobust chain symbol env).balance = "0") ∧
    (∀ m config, CHAIN_CONFIG chain = some config →
      env.providerResult = .error m →
      getEVMBalanceRobust chain symbol env =
        { balance := "0", error := some m }) ∧
    (∀ config b, CHAIN_CONFIG chain = some config →
      env.providerResult = .ok () → ERC20_TOKENS chain symbol = none →
      env.nativeBalance = .ok b →
      getEVMBalanceRobust chain symbol env = { balance := formatEther b }) ∧
    (∀ config tc b, CHAIN_CONFIG chain = some config →
      env.providerResult = .ok () → ERC20_TOKENS chain symbol = some tc →
      env.tokenBalance = .ok b →
      getEVMBalanceRobust chain symbol env =
        { balance := formatUnits b tc.decimals }) ∧
    ((getTronBalance symbol tenv).error = none ∨
      (getTronBalance symbol tenv).balance = "0") ∧
    (∀ m, symbol = "TRX" → tenv.trxBalance = .error m →
      getTronBalance symbol tenv = { balance := "0", error := some m }) := by
  refine ⟨?_, ?_, ?_, ?_, ?_, ?_⟩
  · cases hc : CHAIN_CONFIG chain with
    | none => right; simp [getEVMBalanceRobust, hc]
    | some config =>
      cases hp : env.providerResult with
      | error m => right; simp [getEVMBalanceRobust, hc, hp]
      | ok u =>
        cases ht : ERC20_TOKENS chain symbol with
        | some tc =>
          cases hb : env.tokenBalance with
          | error m => right; simp [getEVMBalanceRobust, hc, hp, ht, hb]
          | ok b => left; simp [getEVMBalanceRobust, hc, hp, ht, hb]
        | none =>
          cases hb : env.nativeBalance with
          | error m => right; simp [getEVMBalanceRobust, hc, hp, ht, hb]
          | ok b => left; simp [getEVMBalanceRobust, hc, hp, ht, hb]
  · intro m config hc hp
    simp [getEVMBalanceRobust, hc, hp]
  · intro config b hc hp ht hb
    simp [getEVMBalanceRobust, hc, hp, ht, hb]
  · intro config tc b hc hp ht hb
    simp [getEVMBalanceRobust, hc, hp, ht, hb]
  · by_cases hs : symbol = "TRX"
    · cases hb : tenv.trxBalance with
      | error m => right; simp [getTronBalance, hs, hb]
      | ok b => left; simp [getTronBalance, hs, hb]
    · cases ht : TRC20_TOKENS symbol with
      | some tc =>
        cases hb : tenv.tokenBalance with
        | error m => right; simp [getTronBalance, hs, ht, hb]
        | ok b => left; simp [getTronBalance, hs, ht, hb]
      | none => right; simp [getTronBalance, hs, ht]
  · intro m hs hb
    simp [getTronBalance, hs, hb]

/-- Witness for C7: with every endpoint down, the EVM balance operation
returns "0" together with the error message. -/
theorem claim7_balance_robust_witness :
    getEVMBalanceRobust "ETHEREUM" "ETH"
      { providerResult := .error "All RPC endpoints failed for ETHEREUM",
        tokenBalance := .ok 0, nativeBalance := .ok 0 } =
      { balance := "0",
        error := some "All RPC endpoints failed for ETHEREUM" } := by
  exact (claim7_balance_robust "ETHEREUM" "ETH"
    { providerResult := .error "All RPC endpoints failed for ETHEREUM",
      tokenBalance := .ok 0, nativeBalance := .ok 0 }
    ⟨.ok 0, .ok 0⟩).2.1 "All RPC endpoints failed for ETHEREUM"
    ⟨1, "ETH", "https://etherscan.io/tx/", 120⟩ rfl rfl

/-- C8 counterexample: when the fee-market query itself rejects,
`estimateTransactionFee` propagates the provider error with `success =
false` — it does not return fallback values with `success = true`; and the
gas-limit fallback is the bare 21000, not 21000 scaled by the configured
multiplier. -/
theorem claim8_counterexample :
    (estimateTransactionFee "ETHEREUM" "ETH"
      { providerResult := .ok (), parseAmount := .ok 1000000000000000000,
        gasEstimateResult := .error "estimate failed",
        feeData := .error "fee market query failed" }).success = false ∧
    (estimateTransactionFee "ETHEREUM" "ETH"
      { providerResult := .ok (), parseAmount := .ok 1000000000000000000,
        gasEstimateResult := .error "estimate failed",
        feeData := .error "fee market query failed" }).error =
      some "fee market query failed" ∧
    estimateGas 120 false (.error "estimate failed") (.ok (none, none)) =
      .ok ⟨21000, 50000000000, 2000000000, 21000 * 50000000000⟩ := by
  refine ⟨by decide, by decide, rfl⟩

/-- C8 amended: a failing gas-limit estimate falls back to the fixed
defaults 100000 (calldata) / 21000 (plain transfer), without the
multiplier; absent fee-market fields fall back to 50 gwei / 2 gwei; a
rejected fee-market query propagates out of `estimateGas`, so
`estimateTransactionFee` then reports `success = false` with that error
(rather than fallback values); a successful estimate reports `success =
true`; and a UTXO provider failure yields the per-chain default fee
constants with the 'Using default fee estimate' note. -/
theorem claim8_amended_fee_fallbacks :
    (∀ (pct : Nat) (hasData : Bool) (e : String) (mf mp : Option Nat),
      ∃ ge, estimateGas pct hasData (.error e) (.ok (mf, mp)) = .ok ge ∧
        ge.gasLimit = if hasData then 100000 else 21000) ∧
    (∀ (pct : Nat) (hasData : Bool) (g : Except String Nat),
      ∃ ge, estimateGas pct hasData g (.ok (none, none)) = .ok ge ∧
        ge.maxFeePerGas = 50000000000 ∧
        ge.maxPriorityFeePerGas = 2000000000) ∧
    (∀ (pct : Nat) (hasData : Bool) (g : Except String Nat) (e : String),
      estimateGas pct hasData g (.error e) = .error e) ∧
    (∀ (chain symbol : String) (env : FeeEnv) (config : EVMChainConfig)
        (a : Nat) (m : String),
      CHAIN_CONFIG chain = some config → env.providerResult = .ok () →
      env.parseAmount = .ok a → env.feeData = .error m →
      estimateTransactionFee chain symbol env =
        { success := false, error := some m }) ∧
    (∀ (chain symbol : String) (env : FeeEnv) (config : EVMChainConfig)
        (a : Nat) (ge : GasEstimate),
      CHAIN_CONFIG chain = some config → env.providerResult = .ok () →
      env.parseAmount = .ok a →
      estimateGas config.gasMultiplierPct
          (ERC20_TOKENS chain symbol).isSome env.gasEstimateResult
          env.feeData = .ok ge →
      estimateTransactionFee chain symbol env =
        { success := true,
          estimatedFee := some (formatEther ge.estimatedCostWei),
          gasLimit := some (toString ge.gasLimit) }) ∧
    (∀ (chain : String) (testnet : Bool) (e : String),
      UTXO_CHAIN_CONFIG testnet chain ≠ none →
      estimateUTXOFee chain testnet (.error e) =
        { estimatedFee :=
            if chain = "BITCOIN" then "0.00005"
            else if chain = "LITECOIN" then "0.001"
            else if chain = "DOGECOIN" then "1"
            else "0.001",
          feeRate := "0", error := some "Using default fee estimate" }) := by
  refine ⟨?_, ?_, ?_, ?_, ?_, ?_⟩
  · intro pct hasData e mf mp
    exact ⟨_, rfl, rfl⟩
  · intro pct hasData g
    exact ⟨_, rfl, rfl, rfl⟩
  · intro pct hasData g e
    rfl
  · intro chain symbol env config a m hc hp hpa hfd
    simp [estimateTransactionFee, hc, hp, hpa, hfd, estimateGas]
  · intro chain symbol env config a ge hc hp hpa hge
    simp [estimateTransactionFee, hc, hp, hpa, hge]
  · intro chain testnet e hne
    cases hcfg : UTXO_CHAIN_CONFIG testnet chain with
    | none => exact absurd hcfg hne
    | some config => simp [estimateUTXOFee, hcfg]

/-- Witness for C8's amended fallbacks at concrete environments. -/
theorem claim8_amended_fee_fallbacks_witness :
    estimateUTXOFee "BITCOIN" false (.error "provider down") =
      { estimatedFee := "0.00005", feeRate := "0",
        error := some "Using default fee estimate" } ∧
    estimateTransactionFee "ETHEREUM" "ETH"
      { providerResult := .ok (), parseAmount := .ok 5,
        gasEstimateResult := .error "no estimate",
        feeData := .ok (none, none) } =
      { success := true,
        estimatedFee := some (formatEther (21000 * 50000000000)),
        gasLimit := some (toString 21000) } := by
  refine ⟨?_, ?_⟩
  · have h := (claim8_amended_fee_fallbacks).2.2.2.2.2 "BITCOIN" false
      "provider down" (by decide)
    simpa using h
  · exact (claim8_amended_fee_fallbacks).2.2.2.2.1 "ETHEREUM" "ETH"
      { providerResult := .ok (), parseAmount := .ok 5,
        gasEstimateResult := .error "no estimate",
        feeData := .ok (none, none) }
      ⟨1, "ETH", "https://etherscan.io/tx/", 120⟩ 5
      ⟨21000, 50000000000, 2000000000, 21000 * 50000000000⟩ rfl rfl rfl rfl
